import Mathlib

/-!
Shallow embedding of the Hybrid Retrieval Orchestrator
(`backend/api/router_logic.py`, `backend/api/routes/chat.py`,
`rag_pipeline/retrieve.py`, `kg_pipeline/kg_nl_demo.py`).

External collaborators (vector store, graph chain, language model,
entity extractor) are modelled as function-valued environment fields;
the orchestrator code itself is transcribed definition by definition.
-/

namespace AstraQ

/-- Python substring machinery: `listStarts n h` models "h starts with n"
on explicit character lists. -/
def listStarts : List Char → List Char → Bool
  | [], _ => true
  | _ :: _, [] => false
  | a :: as, b :: bs => a == b && listStarts as bs

/-- `containsSub n h` models Python `n in h` (substring containment)
on explicit character lists. -/
def containsSub : List Char → List Char → Bool
  | n, [] => listStarts n []
  | n, c :: cs => listStarts n (c :: cs) || containsSub n cs

/-- Python `needle in hay` on strings. -/
def pyIn (needle hay : String) : Bool :=
  containsSub needle.data hay.data

/-- Python `s.lower()`, modelled characterwise (the phrases involved are
ASCII, where Python and Lean lowercasing agree). -/
def pyLower (s : String) : String :=
  String.mk (s.data.map Char.toLower)

theorem listStarts_iff (n h : List Char) :
    listStarts n h = true ↔ ∃ t, n ++ t = h := by
  induction n generalizing h with
  | nil => simp [listStarts]
  | cons a as ih =>
    cases h with
    | nil => simp [listStarts]
    | cons b bs =>
      simp only [listStarts, Bool.and_eq_true, beq_iff_eq, ih, List.cons_append,
        List.cons.injEq]
      constructor
      · rintro ⟨rfl, t, rfl⟩
        exact ⟨t, rfl, rfl⟩
      · rintro ⟨t, rfl, rfl⟩
        exact ⟨rfl, t, rfl⟩

theorem containsSub_iff (n h : List Char) :
    containsSub n h = true ↔ ∃ s t, s ++ n ++ t = h := by
  induction h with
  | nil =>
    simp only [containsSub, listStarts_iff]
    constructor
    · rintro ⟨t, ht⟩
      rcases List.append_eq_nil.mp ht with ⟨rfl, rfl⟩
      exact ⟨[], [], rfl⟩
    · rintro ⟨s, t, ht⟩
      have h2 := List.append_eq_nil.mp ht
      rcases List.append_eq_nil.mp h2.1 with ⟨rfl, rfl⟩
      exact ⟨[], rfl⟩
  | cons c cs ih =>
    simp only [containsSub, Bool.or_eq_true, listStarts_iff, ih]
    constructor
    · rintro (⟨t, ht⟩ | ⟨s, t, rfl⟩)
      · exact ⟨[], t, by simpa using ht⟩
      · exact ⟨c :: s, t, rfl⟩
    · rintro ⟨s, t, hst⟩
      cases s with
      | nil =>
        left
        exact ⟨t, by simpa using hst⟩
      | cons a as =>
        right
        have h2 : a = c ∧ as ++ n ++ t = cs := by
          simpa using hst
        exact ⟨as, t, h2.2⟩

theorem containsSub_trans {m n h : List Char} (h1 : containsSub n h = true)
    (h2 : containsSub m n = true) : containsSub m h = true := by
  rw [containsSub_iff] at h1 h2 ⊢
  obtain ⟨s, t, rfl⟩ := h1
  obtain ⟨u, v, rfl⟩ := h2
  exact ⟨s ++ u, v ++ t, by simp⟩

/-! ## Mode router (`backend/api/router_logic.py`) -/

/-- The `Mode` enum. -/
inductive Mode where
  | KG
  | RAG
  | BOTH
deriving DecidableEq, Repr

/-- KG-signal phrase set of `decide_mode`. -/
def kgPhrases : List String :=
  ["where is", "where are", "list", "which products", "which data"]

/-- RAG-signal phrase set of `decide_mode`. -/
def ragPhrases : List String :=
  ["explain", "what is", "how does", "describe", "why"]

/-- `decide_mode(question)`: lower-case the question, return KG when any
KG phrase occurs as a substring, else RAG when any RAG phrase occurs,
else BOTH. -/
def decide_mode (question : String) : Mode :=
  if kgPhrases.any (fun p => pyIn p (pyLower question)) then Mode.KG
  else if ragPhrases.any (fun p => pyIn p (pyLower question)) then Mode.RAG
  else Mode.BOTH

/-- Shared helper: any KG phrase occurring in the lower-cased question
forces mode KG (the KG branch is checked first). -/
theorem decide_mode_KG_of_phrase {q p : String} (hp : p ∈ kgPhrases)
    (h : pyIn p (pyLower q) = true) : decide_mode q = Mode.KG := by
  have hany : kgPhrases.any (fun p => pyIn p (pyLower q)) = true :=
    List.any_eq_true.mpr ⟨p, hp, h⟩
  simp [decide_mode, hany]

/-! ## RAG pipeline (`rag_pipeline/retrieve.py`) -/

/-- Result rows from the graph store: a list of records (field, value). -/
abbrev Rows := List (List (String × String))

/-- A retrieved chunk: `page_content` plus the `source` entry of its
metadata dict (`None` when the key is absent). -/
structure Doc where
  page_content : String
  source_meta : Option String
deriving DecidableEq, Repr

/-- A provenance dict as built by the orchestrator: the keys that occur
are `source` (always), and optionally `cypher`, `rows`,
`content_preview`; an absent key is `none`. -/
structure SrcDict where
  source : String
  cypher : Option String := none
  rows : Option Rows := none
  content_preview : Option String := none
deriving DecidableEq, Repr

/-- External collaborators of the RAG pipeline: `retrieve` is
`retriever.invoke` (top-5 similarity search), `docstore` enumerates
`vectorstore.docstore._dict.values()`, `genContent` is
`model.generate_content(...).text`, `ents` is the spaCy entity texts of
a query. -/
structure RagEnv where
  retrieve : String → List Doc
  docstore : List Doc
  genContent : String → String
  ents : String → List String

/-- Python truthiness of an `Optional[str]`: `None` and `""` are falsy. -/
def optTruthy : Option String → Bool
  | none => false
  | some s => !(s == "")

/-- `fallback_lower in doc.page_content.lower()`: case-insensitive
substring test of the keyword against a chunk's text. -/
def docHasKw (kw : String) (d : Doc) : Bool :=
  pyIn (pyLower kw) (pyLower d.page_content)

/-- The reorder loop of `rag_qa` (lines 64-71): one pass appending each
doc to `contains_keyword` or `others`. -/
def reorderLoop (kw : String) : List Doc → List Doc × List Doc
  | [] => ([], [])
  | d :: ds =>
    let rest := reorderLoop kw ds
    if docHasKw kw d then (d :: rest.1, rest.2) else (rest.1, d :: rest.2)

/-- `ordered_docs = contains_keyword + others` (line 73). -/
def reorderDocs (kw : String) (docs : List Doc) : List Doc :=
  (reorderLoop kw docs).1 ++ (reorderLoop kw docs).2

/-- The fixed sentinel answer of the exhausted fallback (line 60). -/
def couldNotFindMsg (kw : String) : String :=
  "Could not find any relevant information for '" ++ kw ++ "'."

/-- `context = "\n\n".join(doc.page_content for doc in ordered_docs)`. -/
def contextOf (docs : List Doc) : String :=
  String.intercalate "\n\n" (docs.map (fun d => d.page_content))

/-- The prompt f-string of `rag_qa` (lines 81-99) with `context` and
`query` interpolated. -/
def ragPrompt (query context : String) : String :=
  "You are helping users understand MOSDAC satellite data products.\n\nContext:\n"
    ++ context
    ++ "\n\nQuestion:\n"
    ++ query
    ++ "\n\nInstructions:\n- Base your answer ONLY on the context above.\n- If the question asks for spatial resolution or temporal frequency, look for:\n  - grid size (e.g., 0.25 degree, 0.5 degree, km, etc.)\n  - time step (e.g., 30 minutes, hourly, daily).\n- If the context contains any approximate information related to the question, use it and answer in one strong, factual sentence.\n- Only if the context truly has no relevant information to answer the question, respond with exactly: I don't know the answer.\n- Do NOT say you don't know just because access details (download URL, portal path) are missing.\n\nAnswer in one concise sentence:\n"

/-- Tail of `rag_qa` after the fallback block (lines 62-106): reorder the
chosen docs when `use_fallback` and a truthy keyword are both present,
assemble the context, and call the language model. -/
def ragFinish (env : RagEnv) (query : String) (use_fallback : Bool)
    (fallback_keyword : Option String) (docs : List Doc) : String :=
  let ordered_docs :=
    if use_fallback && optTruthy fallback_keyword then
      reorderDocs (fallback_keyword.getD "") docs
    else docs
  env.genContent (ragPrompt query (contextOf ordered_docs))

/-- `rag_qa(query, use_fallback, fallback_keyword)` (lines 39-106). -/
def rag_qa (env : RagEnv) (query : String) (use_fallback : Bool)
    (fallback_keyword : Option String) : String :=
  let retrieved_docs := env.retrieve query
  let found :=
    if use_fallback && optTruthy fallback_keyword then
      retrieved_docs.any (docHasKw (fallback_keyword.getD ""))
    else !retrieved_docs.isEmpty
  if use_fallback && !found && optTruthy fallback_keyword then
    let fdocs := env.docstore.filter (docHasKw (fallback_keyword.getD ""))
    if fdocs.isEmpty then couldNotFindMsg (fallback_keyword.getD "")
    else ragFinish env query use_fallback fallback_keyword fdocs
  else ragFinish env query use_fallback fallback_keyword retrieved_docs

/-- `extract_fallback_keyword` (lines 114-117): first spaCy entity text,
or `None`. -/
def extract_fallback_keyword (env : RagEnv) (query : String) : Option String :=
  (env.ents query).head?

/-- One entry of the `sources` list of `run_rag_pipeline` (lines
135-141): source id (default "Unknown") and the first 200 characters of
the chunk followed by "...". -/
def mkSourceRec (d : Doc) : SrcDict :=
  { source := d.source_meta.getD "Unknown",
    content_preview := some (String.mk (d.page_content.data.take 200) ++ "...") }

/-- The dict returned by `run_rag_pipeline`. -/
structure RagResult where
  answer : String
  sources : List SrcDict
deriving DecidableEq, Repr

/-- `run_rag_pipeline(query, use_fallback, fallback_keyword)` (lines
122-153). In the source `use_fallback` defaults to `True` and
`fallback_keyword` to `None`. -/
def run_rag_pipeline (env : RagEnv) (query : String) (use_fallback : Bool)
    (fallback_keyword : Option String) : RagResult :=
  let fk := if optTruthy fallback_keyword then fallback_keyword
            else extract_fallback_keyword env query
  let retrieved_docs := env.retrieve query
  let sources := (retrieved_docs.take 3).map mkSourceRec
  { answer := rag_qa env query use_fallback fk, sources := sources }

/-! ## KG pipeline (`kg_pipeline/kg_nl_demo.py`) -/

/-- One intermediate step dict of `GraphCypherQAChain`: the keys
`ask_kg` reads (`query`, `context`), absent keys as `none`. -/
structure ChainStep where
  query : Option String
  context : Option Rows
deriving DecidableEq, Repr

/-- The dict returned by `chain.invoke`: `result` and
`intermediate_steps` (absent keys as `none` / `[]`). -/
structure ChainOutput where
  result : Option String
  intermediate_steps : List ChainStep
deriving DecidableEq, Repr

/-- External collaborator of the KG pipeline: the
`GraphCypherQAChain.invoke` call. -/
structure KgEnv where
  chainInvoke : String → ChainOutput

/-- The dict returned by `ask_kg`. -/
structure KgResult where
  answer : String
  cypher : String
  rows : Rows
deriving DecidableEq, Repr

/-- `ask_kg(question)` (lines 108-124): read the generated cypher from
step 0 and the rows from step 1 of the chain's intermediate steps, with
empty defaults. -/
def ask_kg (env : KgEnv) (question : String) : KgResult :=
  let result := env.chainInvoke question
  let steps := result.intermediate_steps
  let cypher := match steps with
    | [] => ""
    | s :: _ => s.query.getD ""
  let rows := match steps with
    | _ :: s2 :: _ => s2.context.getD []
    | _ => []
  { answer := result.result.getD "", cypher := cypher, rows := rows }

/-! ## Chat endpoint (`backend/api/routes/chat.py`) -/

/-- The two pipeline calls as seen from `chat`: `Except.error e` models
the call raising an (upstream) exception `e`, which in the source
propagates out of `chat` uncaught; `Except.ok` models a normal return. -/
structure ChatEnv where
  askKg : String → Except String KgResult
  runRag : String → Except String RagResult

/-- The `ChatResponse` model: answer, provenance dicts, mode. -/
structure ChatResponse where
  answer : String
  sources : List SrcDict
  mode : Mode
deriving DecidableEq, Repr

/-- The fusion block of `chat` (lines 53-69): concatenate the non-empty
answers with a blank-line separator; KG provenance (cypher only, no
rows) first, then the RAG provenance list. -/
def bothResponse (mode : Mode) (kg : Option KgResult) (rag : Option RagResult) :
    ChatResponse :=
  let parts : List String :=
    (match kg with | some k => [k.answer] | none => []) ++
    (match rag with | some r => [r.answer] | none => [])
  let srcs : List SrcDict :=
    (match kg with
      | some k => [{ source := "KG", cypher := some k.cypher }]
      | none => []) ++
    (match rag with | some r => r.sources | none => [])
  { answer := String.intercalate "\n\n" (parts.filter (fun p => p != "")),
    sources := srcs, mode := mode }

/-- `chat(payload)` (lines 26-69): route the message, call the KG path
when mode is KG or BOTH, then the RAG path when mode is RAG or BOTH (an
exception in either call propagates, aborting the request), then fuse.
The `kg_result`/`rag_result` truthiness tests of the source are
`Option.isSome` here: the pipeline dicts are never empty when a call
returns. -/
def chat (env : ChatEnv) (message : String) : Except String ChatResponse :=
  let mode := decide_mode message
  let kgStep : Except String (Option KgResult) :=
    if mode = Mode.KG ∨ mode = Mode.BOTH then (env.askKg message).map some
    else Except.ok none
  match kgStep with
  | Except.error e => Except.error e
  | Except.ok kg_result =>
    let ragStep : Except String (Option RagResult) :=
      if mode = Mode.RAG ∨ mode = Mode.BOTH then (env.runRag message).map some
      else Except.ok none
    match ragStep with
    | Except.error e => Except.error e
    | Except.ok rag_result =>
      match mode, kg_result, rag_result with
      | Mode.KG, some kg, _ =>
        Except.ok
          { answer := kg.answer,
            sources := [{ source := "KG", cypher := some kg.cypher, rows := some kg.rows }],
            mode := Mode.KG }
      | Mode.RAG, _, some rag =>
        Except.ok { answer := rag.answer, sources := rag.sources, mode := Mode.RAG }
      | _, _, _ => Except.ok (bothResponse mode kg_result rag_result)

/-- C6: any question whose lower-cased form contains a KG-signal phrase
(such as "where is") is routed to KG by `decide_mode`, even when it also
contains a RAG-signal phrase — the KG check strictly precedes the RAG
check. -/
theorem C6_kg_precedence (q p : String) (hp : p ∈ kgPhrases)
    (h : pyIn p (pyLower q) = true) : decide_mode q = Mode.KG :=
  decide_mode_KG_of_phrase hp h

theorem C6_kg_precedence_witness :
    ("where is" ∈ kgPhrases ∧
      pyIn "where is" (pyLower "Where is X? Explain it") = true) ∧
    decide_mode "Where is X? Explain it" = Mode.KG :=
  ⟨⟨by decide, by decide⟩,
    C6_kg_precedence "Where is X? Explain it" "where is" (by decide) (by decide)⟩

/-- C7: `decide_mode` is a total function (by construction in this
embedding) and any question whose lower-cased form matches no KG-signal
phrase and no RAG-signal phrase — including the empty and whitespace-only
strings — yields BOTH. -/
theorem C7_default_both (q : String)
    (hkg : ∀ p ∈ kgPhrases, pyIn p (pyLower q) = false)
    (hrag : ∀ p ∈ ragPhrases, pyIn p (pyLower q) = false) :
    decide_mode q = Mode.BOTH := by
  have h1 : kgPhrases.any (fun p => pyIn p (pyLower q)) = false := by
    simp only [List.any_eq_false]
    intro p hp
    simp [hkg p hp]
  have h2 : ragPhrases.any (fun p => pyIn p (pyLower q)) = false := by
    simp only [List.any_eq_false]
    intro p hp
    simp [hrag p hp]
  simp [decide_mode, h1, h2]

theorem C7_default_both_witness :
    decide_mode "" = Mode.BOTH ∧ decide_mode "   " = Mode.BOTH :=
  ⟨C7_default_both "" (by decide) (by decide),
    C7_default_both "   " (by decide) (by decide)⟩

/-- C10: routing is raw substring containment with no word-boundary test:
a question containing "list" only inside a longer word such as "listen"
or "playlist" is still routed to KG. -/
theorem C10_no_word_boundary (q : String) :
    (pyIn "listen" (pyLower q) = true → decide_mode q = Mode.KG) ∧
    (pyIn "playlist" (pyLower q) = true → decide_mode q = Mode.KG) := by
  constructor
  · intro h
    have h' : containsSub (String.data "listen") (String.data (pyLower q)) = true := h
    have hl : containsSub (String.data "list") (String.data "listen") = true := by decide
    exact decide_mode_KG_of_phrase (by decide) (containsSub_trans h' hl)
  · intro h
    have h' : containsSub (String.data "playlist") (String.data (pyLower q)) = true := h
    have hl : containsSub (String.data "list") (String.data "playlist") = true := by decide
    exact decide_mode_KG_of_phrase (by decide) (containsSub_trans h' hl)

theorem C10_no_word_boundary_witness :
    pyIn "listen" (pyLower "Please listen to this") = true ∧
    decide_mode "Please listen to this" = Mode.KG :=
  ⟨by decide, (C10_no_word_boundary "Please listen to this").1 (by decide)⟩

/-- The reorder loop is the pair of keyword filters. -/
theorem reorderLoop_eq_filter (kw : String) (docs : List Doc) :
    reorderLoop kw docs =
      (docs.filter (docHasKw kw), docs.filter (fun d => !docHasKw kw d)) := by
  induction docs with
  | nil => rfl
  | cons d ds ih =>
    cases hd : docHasKw kw d <;>
      simp [reorderLoop, List.filter_cons, hd, ih]

/-- C3: the fallback reordering is a stable partition: the output is the
keyword-containing docs followed by the others, each group a sublist of
the input (relative order preserved), and the output is a permutation of
the input (every chunk exactly once, multiplicities preserved). -/
theorem C3_stable_partition (kw : String) (docs : List Doc) :
    reorderDocs kw docs =
      docs.filter (docHasKw kw) ++ docs.filter (fun d => !docHasKw kw d) ∧
    List.Sublist (docs.filter (docHasKw kw)) docs ∧
    List.Sublist (docs.filter (fun d => !docHasKw kw d)) docs ∧
    (reorderDocs kw docs).Perm docs ∧
    ∀ d, (reorderDocs kw docs).count d = docs.count d := by
  have he : reorderDocs kw docs =
      docs.filter (docHasKw kw) ++ docs.filter (fun d => !docHasKw kw d) := by
    simp [reorderDocs, reorderLoop_eq_filter]
  have hperm : (reorderDocs kw docs).Perm docs := by
    rw [he]
    exact List.filter_append_perm _ _
  exact ⟨he, List.filter_sublist docs, List.filter_sublist docs, hperm,
    fun d => hperm.count_eq d⟩

/-- C2: the `sources` field of `run_rag_pipeline` is exactly the top-3
records of the primary (pre-fallback, pre-reorder) retrieval, and is
invariant under the fallback flag and keyword — also on calls where the
fallback scan replaces the result set or the sentinel is returned. -/
theorem C2_sources_pre_fallback (env : RagEnv) (q : String) (uf : Bool)
    (kw : Option String) :
    (run_rag_pipeline env q uf kw).sources =
      ((env.retrieve q).take 3).map mkSourceRec ∧
    ∀ (uf2 : Bool) (kw2 : Option String),
      (run_rag_pipeline env q uf kw).sources =
        (run_rag_pipeline env q uf2 kw2).sources := by
  exact ⟨rfl, fun uf2 kw2 => rfl⟩

/-- Shared helper for C4: when no primary doc and no docstore doc
contains the keyword, `rag_qa` short-circuits with the sentinel. -/
theorem rag_qa_exhausted (env : RagEnv) (q kw : String) (hkw : kw ≠ "")
    (h1 : ∀ d ∈ env.retrieve q, docHasKw kw d = false)
    (h2 : ∀ d ∈ env.docstore, docHasKw kw d = false) :
    rag_qa env q true (some kw) = couldNotFindMsg kw := by
  have htr : optTruthy (some kw) = true := by
    simp [optTruthy, hkw]
  have hfound : (env.retrieve q).any (docHasKw kw) = false := by
    rw [List.any_eq_false]
    intro d hd
    simp [h1 d hd]
  have hfil : env.docstore.filter (docHasKw kw) = [] := by
    rw [List.filter_eq_nil_iff]
    intro d hd
    simp [h2 d hd]
  simp [rag_qa, htr, hfound, hfil]

/-- C4: with fallback enabled and a keyword that occurs neither in any
primary-retrieval chunk nor anywhere in the chunk store, `rag_qa`
returns the fixed "Could not find any relevant information for
'keyword'." string as a normal answer; the result is the same for every
language model `g`, i.e. the model is never consulted. -/
theorem C4_exhausted_sentinel (env : RagEnv) (q kw : String) (hkw : kw ≠ "")
    (h1 : ∀ d ∈ env.retrieve q, docHasKw kw d = false)
    (h2 : ∀ d ∈ env.docstore, docHasKw kw d = false) :
    rag_qa env q true (some kw) = couldNotFindMsg kw ∧
    ∀ g : String → String,
      rag_qa ⟨env.retrieve, env.docstore, g, env.ents⟩ q true (some kw) =
        couldNotFindMsg kw :=
  ⟨rag_qa_exhausted env q kw hkw h1 h2,
    fun g => rag_qa_exhausted ⟨env.retrieve, env.docstore, g, env.ents⟩ q kw hkw h1 h2⟩

/-- Concrete environment for the C4 witness: one chunk, no "INSAT"
anywhere. -/
def ragEnvC4 : RagEnv :=
  { retrieve := fun _ => [{ page_content := "hello world", source_meta := some "doc1" }],
    docstore := [{ page_content := "hello world", source_meta := some "doc1" }],
    genContent := fun s => s,
    ents := fun _ => [] }

theorem C4_exhausted_sentinel_witness :
    rag_qa ragEnvC4 "Where is INSAT data?" true (some "INSAT") =
      couldNotFindMsg "INSAT" :=
  (C4_exhausted_sentinel ragEnvC4 "Where is INSAT data?" "INSAT"
    (by decide) (by decide) (by decide)).1

/-- A chunk containing the keyword "insat" and one that does not, the
non-matching one ranked first by the retriever. -/
def docMatch : Doc := { page_content := "INSAT-3D rainfall grid", source_meta := some "a" }

def docOther : Doc := { page_content := "ocean current maps", source_meta := some "b" }

/-- Concrete environment for C5: primary retrieval returns the
non-matching chunk before the matching one; the language model echoes
its prompt, exposing the assembled context. -/
def ragEnvC5 : RagEnv :=
  { retrieve := fun _ => [docOther, docMatch],
    docstore := [docOther, docMatch],
    genContent := fun s => s,
    ents := fun _ => [] }

set_option maxRecDepth 4096 in
/-- C5 as stated is false: with `use_fallback = False` and the keyword
"insat" present, the chosen chunk set is NOT reordered keyword-first —
the context is assembled in the original retrieval order, which differs
from the keyword-first order the claim requires. -/
theorem C5_counterexample :
    rag_qa ragEnvC5 "q" false (some "insat") =
      ragPrompt "q" (contextOf [docOther, docMatch]) ∧
    reorderDocs "insat" (ragEnvC5.retrieve "q") = [docMatch, docOther] ∧
    rag_qa ragEnvC5 "q" false (some "insat") ≠
      ragEnvC5.genContent
        (ragPrompt "q" (contextOf (reorderDocs "insat" (ragEnvC5.retrieve "q")))) :=
  ⟨by decide, by decide, by decide⟩

/-- C5 (amended): the reorder runs exactly when `use_fallback` is true
and a keyword is present. Then — even when fallback was never triggered
because some primary chunk contains the keyword — the context is built
from the keyword-first reordering of the primary set; with
`use_fallback` false the primary order is kept unchanged. -/
theorem C5_reorder_scope (env : RagEnv) (q kw : String) (hkw : kw ≠ "")
    (hfound : ∃ d ∈ env.retrieve q, docHasKw kw d = true) :
    rag_qa env q true (some kw) =
      env.genContent (ragPrompt q (contextOf (reorderDocs kw (env.retrieve q)))) ∧
    rag_qa env q false (some kw) =
      env.genContent (ragPrompt q (contextOf (env.retrieve q))) := by
  have htr : optTruthy (some kw) = true := by
    simp [optTruthy, hkw]
  have hfound2 : (env.retrieve q).any (docHasKw kw) = true :=
    List.any_eq_true.mpr hfound
  constructor
  · simp [rag_qa, ragFinish, htr, hfound2]
  · simp [rag_qa, ragFinish]

theorem C5_reorder_scope_witness :
    rag_qa ragEnvC5 "q" true (some "insat") =
      ragEnvC5.genContent
        (ragPrompt "q" (contextOf (reorderDocs "insat" (ragEnvC5.retrieve "q")))) ∧
    rag_qa ragEnvC5 "q" false (some "insat") =
      ragEnvC5.genContent (ragPrompt "q" (contextOf (ragEnvC5.retrieve "q"))) :=
  C5_reorder_scope ragEnvC5 "q" "insat" (by decide) (by decide)

/-- Joining a single part with the blank-line separator is the part
itself. -/
theorem intercalate_single (s a : String) : String.intercalate s [a] = a := rfl

/-- C8: fusing under BOTH with an empty KG answer and a non-empty RAG
answer yields exactly the RAG answer — the empty part is filtered out
before the blank-line join, so no leading separator artifact appears. -/
theorem C8_empty_kg_fusion (env : ChatEnv) (msg : String) (kg : KgResult)
    (rag : RagResult) (hmode : decide_mode msg = Mode.BOTH)
    (hkg : env.askKg msg = Except.ok kg) (hrag : env.runRag msg = Except.ok rag)
    (hempty : kg.answer = "") (hne : rag.answer ≠ "") :
    chat env msg = Except.ok
      { answer := rag.answer,
        sources := { source := "KG", cypher := some kg.cypher } :: rag.sources,
        mode := Mode.BOTH } := by
  simp [chat, hmode, hkg, hrag, bothResponse, hempty, hne, Except.map,
    intercalate_single]

/-- A KG pipeline result used by concrete chat environments. -/
def kgOkW : KgResult :=
  { answer := "KG answer",
    cypher := "MATCH (s:Satellite) RETURN s.name",
    rows := [[("s.name", "INSAT-3D")]] }

/-- A RAG pipeline result used by concrete chat environments. -/
def ragOkW : RagResult :=
  { answer := "RAG answer",
    sources := [{ source := "docs.txt", content_preview := some "INSAT-3D is..." }] }

/-- Concrete environment for the C8 witness: KG path returns an empty
answer, RAG path a non-empty one. -/
def kgEmptyW : KgResult :=
  { answer := "", cypher := "MATCH (n) RETURN n", rows := [] }

def chatEnvC8 : ChatEnv :=
  { askKg := fun _ => Except.ok kgEmptyW,
    runRag := fun _ => Except.ok ragOkW }

theorem C8_empty_kg_fusion_witness :
    chat chatEnvC8 "Tell me about Oceansat-3" = Except.ok
      { answer := ragOkW.answer,
        sources := { source := "KG", cypher := some kgEmptyW.cypher } :: ragOkW.sources,
        mode := Mode.BOTH } :=
  C8_empty_kg_fusion chatEnvC8 "Tell me about Oceansat-3" kgEmptyW ragOkW
    (by decide) rfl rfl rfl (by decide)

/-- C9: the KG provenance record differs by mode — under mode KG the
single source dict carries the cypher AND the rows; under mode BOTH the
KG source dict carries the cypher only and omits the rows. -/
theorem C9_kg_source_shape (env : ChatEnv) (msg : String) (kg : KgResult)
    (rag : RagResult) :
    (decide_mode msg = Mode.KG → env.askKg msg = Except.ok kg →
      chat env msg = Except.ok
        { answer := kg.answer,
          sources := [{ source := "KG", cypher := some kg.cypher, rows := some kg.rows }],
          mode := Mode.KG }) ∧
    (decide_mode msg = Mode.BOTH → env.askKg msg = Except.ok kg →
      env.runRag msg = Except.ok rag →
      ∃ r, chat env msg = Except.ok r ∧
        r.sources =
          { source := "KG", cypher := some kg.cypher, rows := none } :: rag.sources) := by
  constructor
  · intro hmode hkg
    simp [chat, hmode, hkg, Except.map]
  · intro hmode hkg hrag
    refine ⟨bothResponse Mode.BOTH (some kg) (some rag), ?_, ?_⟩
    · simp [chat, hmode, hkg, hrag, Except.map]
    · simp [bothResponse]

def chatEnvC9 : ChatEnv :=
  { askKg := fun _ => Except.ok kgOkW,
    runRag := fun _ => Except.ok ragOkW }

theorem C9_kg_source_shape_witness :
    chat chatEnvC9 "Where is INSAT-3D rainfall data?" = Except.ok
      { answer := kgOkW.answer,
        sources := [{ source := "KG", cypher := some kgOkW.cypher, rows := some kgOkW.rows }],
        mode := Mode.KG } ∧
    ∃ r, chat chatEnvC9 "Tell me about Oceansat-3" = Except.ok r ∧
      r.sources =
        { source := "KG", cypher := some kgOkW.cypher, rows := none } :: ragOkW.sources :=
  ⟨(C9_kg_source_shape chatEnvC9 "Where is INSAT-3D rainfall data?" kgOkW ragOkW).1
      (by decide) rfl,
    (C9_kg_source_shape chatEnvC9 "Tell me about Oceansat-3" kgOkW ragOkW).2
      (by decide) rfl rfl⟩

/-- Concrete environment for C1: the KG path raises an upstream failure,
the RAG path succeeds. -/
def chatEnvKgFail : ChatEnv :=
  { askKg := fun _ => Except.error "upstream failure",
    runRag := fun _ => Except.ok ragOkW }

/-- C1 as stated is false on the code: `chat` wraps neither pipeline call
in a try/except, so on a BOTH-mode question whose KG path raises while
the RAG path would succeed, the exception propagates and no AnswerBundle
with the surviving path's answer is returned. -/
theorem C1_counterexample :
    decide_mode "Tell me about Oceansat-3" = Mode.BOTH ∧
    chatEnvKgFail.runRag "Tell me about Oceansat-3" = Except.ok ragOkW ∧
    chat chatEnvKgFail "Tell me about Oceansat-3" = Except.error "upstream failure" :=
  ⟨by decide, rfl, rfl⟩

/-- C1 (amended): under mode BOTH an upstream failure in either path is
NOT isolated: the exception propagates out of `chat` unchanged — whether
the KG call fails, or the KG call succeeds and the RAG call fails — and
no fused response is produced from the surviving path. -/
theorem C1_no_isolation (env : ChatEnv) (msg e : String)
    (hmode : decide_mode msg = Mode.BOTH) :
    (env.askKg msg = Except.error e → chat env msg = Except.error e) ∧
    (∀ kg : KgResult, env.askKg msg = Except.ok kg →
      env.runRag msg = Except.error e → chat env msg = Except.error e) := by
  constructor
  · intro hkg
    simp [chat, hmode, hkg, Except.map]
  · intro kg hkg hrag
    simp [chat, hmode, hkg, hrag, Except.map]

def chatEnvRagFail : ChatEnv :=
  { askKg := fun _ => Except.ok kgOkW,
    runRag := fun _ => Except.error "rag down" }

theorem C1_no_isolation_witness :
    chat chatEnvRagFail "Tell me about Oceansat-3" = Except.error "rag down" :=
  (C1_no_isolation chatEnvRagFail "Tell me about Oceansat-3" "rag down"
    (by decide)).2 kgOkW rfl rfl

end AstraQ
